import Mathlib

/-!
Shallow embedding of `src/sandbox.rs` from the compile.me.rust repository.

Pure data (the structs and the compiler registry) is translated directly.
The filesystem-touching body of `Sandbox::prepare` is embedded by explicit
state passing: an `FS` value models the host filesystem state that `prepare`
mutates, and an `FsEffects` value records the outcome (success or failure)
of each fallible primitive the Rust code performs, so the embedding captures
exactly which of those outcomes the Rust code inspects (via `?`) and which
it silently discards (a dropped `Result`).
-/

/-- Descriptor of one supported language runtime (`struct LanguageCompiler`). -/
structure LanguageCompiler where
  language : String
  compiler : String
  interpreter : Bool
  additional_arguments : Option String
  virtual_machine_name : String
  standard_output_file : String
  standard_error_file : String

/-- First entry of the `COMPILERS` constant. -/
def pythonCompiler : LanguageCompiler :=
  { language := "python"
    compiler := "python3"
    interpreter := true
    additional_arguments := none
    virtual_machine_name := "python_virtual_machine"
    standard_output_file := "python.out"
    standard_error_file := "python.error.out" }

/-- Second entry of the `COMPILERS` constant. -/
def nodeCompiler : LanguageCompiler :=
  { language := "Javascript"
    compiler := "node"
    interpreter := true
    additional_arguments := none
    virtual_machine_name := "node_virtual_machine"
    standard_output_file := "node.out"
    standard_error_file := "node.error.out" }

/-- The registry constant `COMPILERS` (a `const` in the source; an immutable
Lean definition here). -/
def COMPILERS : List LanguageCompiler := [pythonCompiler, nodeCompiler]

/-- `enum SandboxTestResult`. -/
inductive SandboxTestResult where
  | NotRan
  | Failed
  | Passed
deriving DecidableEq

/-- `struct SandboxTest`. -/
structure SandboxTest where
  id : String
  stdin_data : Option (List String)
  expected_stdout_data : Option (List String)
  result : SandboxTestResult

/-- `struct SandboxRequest`; `timeout` is a `u8`, modelled as `Fin 256`. -/
structure SandboxRequest where
  id : String
  timeout : Fin 256
  path : String
  source_code : List String
  compiler : LanguageCompiler
  test : Option SandboxTest

/-- `struct Sandbox`. -/
structure Sandbox where
  request : SandboxRequest

/-- `Sandbox::new`: stores the request and does nothing else. -/
def Sandbox.new (request : SandboxRequest) : Sandbox :=
  { request := request }

/-- Host filesystem state: file contents by path and which directories exist. -/
structure FS where
  files : String → Option String
  dirs : String → Bool

/-- An empty filesystem. -/
def FS.empty : FS := { files := fun _ => none, dirs := fun _ => false }

/-- Whether a path is absolute (begins with the separator). -/
def isAbs (s : String) : Bool :=
  match s.data with
  | [] => false
  | c :: _ => c = '/'

/-- Model of Rust `Path::join`: an absolute right operand replaces the left
operand entirely, otherwise the right operand is appended after a separator. -/
def rsJoin (a b : String) : String :=
  if isAbs b then b else a ++ "/" ++ b

/-- `File::create p`: truncating create, leaving an empty file at `p`. -/
def setFile (p c : String) (fs : FS) : FS :=
  { fs with files := fun q => if q = p then some c else fs.files q }

/-- `write_all` on an open handle for `p`: appends bytes to the file at `p`. -/
def appendFile (p s : String) (fs : FS) : FS :=
  { fs with files := fun q => if q = p then (fs.files p).map (fun c => c ++ s) else fs.files q }

/-- Whether the first character list begins the second one. -/
def strLeads : List Char → List Char → Bool
  | [], _ => true
  | _, [] => false
  | a :: as, b :: bs => a = b && strLeads as bs

/-- `q` is the directory `p` itself or one of its ancestors. -/
def dirCovers (q p : String) : Bool :=
  q = p || strLeads (q ++ "/").data p.data

/-- A failed io primitive (`io::Error`); the source propagates them untyped. -/
inductive IOError where
  | ioError
deriving DecidableEq

/-- Outcomes of the fallible filesystem primitives invoked by `prepare`, one
field per call site, plus the host files visible to `fs::copy` and the value
returned by `env::current_dir` (`none` modelling its failure). -/
structure FsEffects where
  dirOk : Bool
  sourceCreateOk : Bool
  lineWriteOk : Nat → Bool
  stdoutCreateOk : Bool
  stderrCreateOk : Bool
  currentDir : Option String
  copyOk : Bool
  hostFiles : String → Option String

/-- `fs::create_dir_all`: on success the path and all its parents exist. -/
def createDirAll (p : String) (fs : FS) : FS :=
  { fs with dirs := fun q => if dirCovers q p then true else fs.dirs q }

/-- `request.path.join(format!("{}.source", language))`. -/
def sourcePath (r : SandboxRequest) : String :=
  rsJoin r.path (r.compiler.language ++ ".source")

/-- `request.path.join(compiler.standard_output_file)`. -/
def stdoutPath (r : SandboxRequest) : String :=
  rsJoin r.path r.compiler.standard_output_file

/-- `request.path.join(compiler.standard_error_file)`. -/
def stderrPath (r : SandboxRequest) : String :=
  rsJoin r.path r.compiler.standard_error_file

/-- `request.path.join("script.sh")`. -/
def scriptPath (r : SandboxRequest) : String :=
  rsJoin r.path "script.sh"

/-- Path of the dedicated stdin file described by the spec
(`<language>.stdin` inside the workspace); no code in `prepare` writes it. -/
def stdinPath (r : SandboxRequest) : String :=
  rsJoin r.path (r.compiler.language ++ ".stdin")

/-- The `for` loop writing each source line with `write_all`, whose `Result`
is discarded: a failed write leaves the file as it was and the loop goes on. -/
def writeLinesFrom (p : String) (ok : Nat → Bool) : Nat → List String → FS → FS
  | _, [], fs => fs
  | i, l :: ls, fs =>
      writeLinesFrom p ok (i + 1) ls (if ok i then appendFile p l fs else fs)

/-- `File::create(source_standard_out)` with its `Result` discarded. -/
def stageStdout (sb : Sandbox) (eff : FsEffects) (fs : FS) : FS :=
  if eff.stdoutCreateOk then setFile (stdoutPath sb.request) "" fs else fs

/-- `File::create(source_error_out)` with its `Result` discarded. -/
def stageStderr (sb : Sandbox) (eff : FsEffects) (fs : FS) : FS :=
  if eff.stderrCreateOk then setFile (stderrPath sb.request) "" fs else fs

/-- `fs::copy(current_dir.join("/dockerFiles/source.sh"), path.join("script.sh"))`
with its `Result` discarded: a failing copy (error outcome or missing host
file) leaves the filesystem unchanged. -/
def stageCopy (sb : Sandbox) (eff : FsEffects) (cwd : String) (fs : FS) : FS :=
  match eff.hostFiles (rsJoin cwd "/dockerFiles/source.sh") with
  | some c => if eff.copyOk then setFile (scriptPath sb.request) c fs else fs
  | none => fs

/-- `env::current_dir()?` followed by the copy; the `?` propagates a failure. -/
def stageScript (sb : Sandbox) (eff : FsEffects) (fs : FS) : Except IOError Unit × FS :=
  match eff.currentDir with
  | none => (Except.error IOError.ioError, fs)
  | some cwd => (Except.ok (), stageCopy sb eff cwd fs)

/-- `File::create(source_file_path)?` (the one staging failure the source
propagates), then the line-writing loop, the stdout/stderr creations and the
script staging. -/
def stageSource (sb : Sandbox) (eff : FsEffects) (fs : FS) : Except IOError Unit × FS :=
  if eff.sourceCreateOk then
    stageScript sb eff
      (stageStderr sb eff
        (stageStdout sb eff
          (writeLinesFrom (sourcePath sb.request) eff.lineWriteOk 0 sb.request.source_code
            (setFile (sourcePath sb.request) "" fs))))
  else (Except.error IOError.ioError, fs)

/-- `Sandbox::prepare`: `create_dir_all` with its `Result` discarded, then the
staging steps, in the source order. -/
def prepare (sb : Sandbox) (eff : FsEffects) (fs : FS) : Except IOError Unit × FS :=
  stageSource sb eff (if eff.dirOk then createDirAll sb.request.path fs else fs)

/-- Modelled from the spec: the Verifier of section 4.4 is not implemented in
src (src only declares `SandboxTestResult` and `SandboxTest`); rule: exact
ordered line-by-line equality yields `Passed`, any mismatch yields `Failed`. -/
def verifyLines (expected actual : List String) : SandboxTestResult :=
  if expected = actual then SandboxTestResult.Passed else SandboxTestResult.Failed

/-- Modelled from the spec: when no test is attached, verification is skipped
and no result is produced. -/
def runVerification (t : Option SandboxTest) (actual : List String) : Option SandboxTestResult :=
  match t with
  | none => none
  | some test => some (verifyLines (test.expected_stdout_data.getD []) actual)

/-- Concatenation of a list of lines with no separator between them (what the
line-writing loop of `prepare` produces). -/
def concatAll : List String → String
  | [] => ""
  | l :: ls => l ++ concatAll ls

/-- A concrete test fixture carrying stdin data. -/
def sampleTest : SandboxTest :=
  { id := "t1"
    stdin_data := some ["x"]
    expected_stdout_data := some ["hello"]
    result := SandboxTestResult.NotRan }

/-- A concrete request fixture. -/
def sampleRequest : SandboxRequest :=
  { id := "1234"
    timeout := 20
    path := "/work/req1"
    source_code := ["a", "b"]
    compiler := pythonCompiler
    test := some sampleTest }

/-- Effects where every filesystem primitive succeeds. -/
def allOkEffects : FsEffects :=
  { dirOk := true
    sourceCreateOk := true
    lineWriteOk := fun _ => true
    stdoutCreateOk := true
    stderrCreateOk := true
    currentDir := some "/home/runner"
    copyOk := true
    hostFiles := fun p => if p = "/dockerFiles/source.sh" then some "#!/bin/sh\n" else none }

/-- Effects where only the directory creation fails. -/
def dirFailEffects : FsEffects := { allOkEffects with dirOk := false }

/-- Effects where only the stdout-file creation fails. -/
def stdoutFailEffects : FsEffects := { allOkEffects with stdoutCreateOk := false }

/-- A filesystem in which the sample workspace path already exists. -/
def occupiedFS : FS :=
  { files := fun _ => none
    dirs := fun q => if q = "/work/req1" then true else false }

/-- The sample request with the smallest representable timeout. -/
def zeroTimeoutRequest : SandboxRequest := { sampleRequest with timeout := 0 }

lemma createDirAll_files (p : String) (fs : FS) : (createDirAll p fs).files = fs.files := rfl

lemma setFile_files_self (p c : String) (fs : FS) : (setFile p c fs).files p = some c := by
  simp [setFile]

lemma setFile_files_ne (p c q : String) (fs : FS) (h : q ≠ p) :
    (setFile p c fs).files q = fs.files q := by
  simp [setFile, h]

lemma setFile_dirs (p c : String) (fs : FS) : (setFile p c fs).dirs = fs.dirs := rfl

lemma appendFile_files_ne (p s q : String) (fs : FS) (h : q ≠ p) :
    (appendFile p s fs).files q = fs.files q := by
  simp [appendFile, h]

lemma appendFile_files_self (p s c : String) (fs : FS) (h : fs.files p = some c) :
    (appendFile p s fs).files p = some (c ++ s) := by
  simp [appendFile, h]

lemma appendFile_dirs (p s : String) (fs : FS) : (appendFile p s fs).dirs = fs.dirs := rfl

lemma writeLinesFrom_files_ne (p : String) (ok : Nat → Bool) (q : String) (h : q ≠ p) :
    ∀ (ls : List String) (i : Nat) (fs : FS),
      (writeLinesFrom p ok i ls fs).files q = fs.files q := by
  intro ls
  induction ls with
  | nil => intro i fs; rfl
  | cons l ls ih =>
      intro i fs
      simp only [writeLinesFrom]
      rw [ih (i + 1)]
      by_cases hb : ok i = true
      · rw [if_pos hb, appendFile_files_ne p l q fs h]
      · rw [if_neg hb]

lemma writeLinesFrom_files_self (p : String) (ok : Nat → Bool) (hok : ∀ j, ok j = true) :
    ∀ (ls : List String) (i : Nat) (fs : FS) (c : String), fs.files p = some c →
      (writeLinesFrom p ok i ls fs).files p = some (c ++ concatAll ls) := by
  intro ls
  induction ls with
  | nil =>
      intro i fs c hc
      simp only [writeLinesFrom, concatAll]
      rw [hc]
      simp
  | cons l ls ih =>
      intro i fs c hc
      simp only [writeLinesFrom, concatAll]
      rw [if_pos (hok i)]
      rw [ih (i + 1) _ (c ++ l) (appendFile_files_self p l c fs hc)]
      rw [String.append_assoc]

lemma writeLinesFrom_dirs (p : String) (ok : Nat → Bool) :
    ∀ (ls : List String) (i : Nat) (fs : FS), (writeLinesFrom p ok i ls fs).dirs = fs.dirs := by
  intro ls
  induction ls with
  | nil => intro i fs; rfl
  | cons l ls ih =>
      intro i fs
      simp only [writeLinesFrom]
      rw [ih (i + 1)]
      by_cases hb : ok i = true
      · rw [if_pos hb, appendFile_dirs]
      · rw [if_neg hb]

lemma stageStdout_files_ne (sb : Sandbox) (eff : FsEffects) (fs : FS) (q : String)
    (h : q ≠ stdoutPath sb.request) : (stageStdout sb eff fs).files q = fs.files q := by
  unfold stageStdout
  split
  · exact setFile_files_ne _ _ _ _ h
  · rfl

lemma stageStdout_dirs (sb : Sandbox) (eff : FsEffects) (fs : FS) :
    (stageStdout sb eff fs).dirs = fs.dirs := by
  unfold stageStdout
  split <;> rfl

lemma stageStderr_files_ne (sb : Sandbox) (eff : FsEffects) (fs : FS) (q : String)
    (h : q ≠ stderrPath sb.request) : (stageStderr sb eff fs).files q = fs.files q := by
  unfold stageStderr
  split
  · exact setFile_files_ne _ _ _ _ h
  · rfl

lemma stageStderr_dirs (sb : Sandbox) (eff : FsEffects) (fs : FS) :
    (stageStderr sb eff fs).dirs = fs.dirs := by
  unfold stageStderr
  split <;> rfl

lemma stageCopy_files_ne (sb : Sandbox) (eff : FsEffects) (cwd : String) (fs : FS) (q : String)
    (h : q ≠ scriptPath sb.request) : (stageCopy sb eff cwd fs).files q = fs.files q := by
  unfold stageCopy
  split
  · split
    · exact setFile_files_ne _ _ _ _ h
    · rfl
  · rfl

lemma stageCopy_dirs (sb : Sandbox) (eff : FsEffects) (cwd : String) (fs : FS) :
    (stageCopy sb eff cwd fs).dirs = fs.dirs := by
  unfold stageCopy
  split
  · split <;> rfl
  · rfl

lemma stageScript_snd_files_ne (sb : Sandbox) (eff : FsEffects) (fs : FS) (q : String)
    (h : q ≠ scriptPath sb.request) : ((stageScript sb eff fs).2).files q = fs.files q := by
  unfold stageScript
  split
  · rfl
  · exact stageCopy_files_ne _ _ _ _ _ h

lemma stageScript_dirs (sb : Sandbox) (eff : FsEffects) (fs : FS) :
    ((stageScript sb eff fs).2).dirs = fs.dirs := by
  unfold stageScript
  split
  · rfl
  · exact stageCopy_dirs _ _ _ _

lemma prepare_files_frame (sb : Sandbox) (eff : FsEffects) (fs : FS) (q : String)
    (h1 : q ≠ sourcePath sb.request) (h2 : q ≠ stdoutPath sb.request)
    (h3 : q ≠ stderrPath sb.request) (h4 : q ≠ scriptPath sb.request) :
    ((prepare sb eff fs).2).files q = fs.files q := by
  have hdir : ∀ fs0 : FS,
      (if eff.dirOk = true then createDirAll sb.request.path fs0 else fs0).files q =
        fs0.files q := by
    intro fs0
    split <;> rfl
  unfold prepare stageSource
  split
  · rw [stageScript_snd_files_ne _ _ _ _ h4, stageStderr_files_ne _ _ _ _ h3,
      stageStdout_files_ne _ _ _ _ h2, writeLinesFrom_files_ne _ _ _ h1,
      setFile_files_ne _ _ _ _ h1, hdir]
  · exact hdir fs

lemma prepare_dirs_eq (sb : Sandbox) (eff : FsEffects) (fs : FS) :
    ((prepare sb eff fs).2).dirs =
      (if eff.dirOk = true then createDirAll sb.request.path fs else fs).dirs := by
  unfold prepare stageSource
  split
  · rw [stageScript_dirs, stageStderr_dirs, stageStdout_dirs, writeLinesFrom_dirs, setFile_dirs]
  · rfl

lemma prepare_ok_iff_aux (sb : Sandbox) (eff : FsEffects) (fs : FS) :
    (prepare sb eff fs).1 = Except.ok () ↔
      (eff.sourceCreateOk = true ∧ eff.currentDir.isSome = true) := by
  unfold prepare stageSource stageScript
  cases hs : eff.sourceCreateOk with
  | false => simp [hs]
  | true =>
      cases hc : eff.currentDir with
      | none => simp [hs, hc]
      | some cwd => simp [hs, hc]

lemma stageSource_fst (sb : Sandbox) (eff eff2 : FsEffects) (fs fs2 : FS)
    (h1 : eff.sourceCreateOk = eff2.sourceCreateOk) (h2 : eff.currentDir = eff2.currentDir) :
    (stageSource sb eff fs).1 = (stageSource sb eff2 fs2).1 := by
  unfold stageSource stageScript
  rw [← h1, ← h2]
  cases hs : eff.sourceCreateOk with
  | false => simp [hs]
  | true =>
      cases hc : eff.currentDir with
      | none => simp [hs, hc]
      | some cwd => simp [hs, hc]

lemma rsJoin_script (a : String) :
    rsJoin a "/dockerFiles/source.sh" = "/dockerFiles/source.sh" := by
  have h : isAbs "/dockerFiles/source.sh" = true := by decide
  unfold rsJoin
  rw [if_pos h]

lemma prepare_script_file (sb : Sandbox) (eff : FsEffects) (fs : FS) (cwd c : String)
    (hs : eff.sourceCreateOk = true) (hc : eff.currentDir = some cwd)
    (hcp : eff.copyOk = true) (hh : eff.hostFiles "/dockerFiles/source.sh" = some c) :
    ((prepare sb eff fs).2).files (scriptPath sb.request) = some c := by
  unfold prepare stageSource
  rw [if_pos hs]
  unfold stageScript
  rw [hc]
  show (stageCopy sb eff cwd _).files (scriptPath sb.request) = some c
  unfold stageCopy
  simp [rsJoin_script cwd, hh, hcp, setFile_files_self]

/-- Claim C1 counterexample: for the sample request with source lines
"a" and "b" and every primitive succeeding, prepare stages the file
content "ab", which does not preserve the line break between the lines
(it differs from the newline-joined content). -/
theorem c1_counterexample :
    sampleRequest.source_code = ["a", "b"] ∧
    ((prepare (Sandbox.new sampleRequest) allOkEffects FS.empty).2).files
      (sourcePath sampleRequest) = some "ab" ∧
    ("ab" : String) ≠ "a" ++ "\n" ++ "b" :=
  ⟨rfl, by decide, by decide⟩

/-- Claim C1 amended: prepare writes the request's source lines to the file
named `<language>.source` inside the workspace concatenated in order with no
separator between them (the original line breaks are lost), provided the
source-file creation and every line write succeed and the other staged paths
do not collide with the source path. -/
theorem c1_source_lines_concatenated (sb : Sandbox) (eff : FsEffects) (fs : FS)
    (hs : eff.sourceCreateOk = true) (hw : ∀ i, eff.lineWriteOk i = true)
    (h2 : sourcePath sb.request ≠ stdoutPath sb.request)
    (h3 : sourcePath sb.request ≠ stderrPath sb.request)
    (h4 : sourcePath sb.request ≠ scriptPath sb.request) :
    ((prepare sb eff fs).2).files (sourcePath sb.request) =
      some (concatAll sb.request.source_code) := by
  unfold prepare stageSource
  rw [if_pos hs]
  rw [stageScript_snd_files_ne _ _ _ _ h4, stageStderr_files_ne _ _ _ _ h3,
    stageStdout_files_ne _ _ _ _ h2,
    writeLinesFrom_files_self (sourcePath sb.request) eff.lineWriteOk hw
      sb.request.source_code 0 _ "" (setFile_files_self _ _ _)]
  rfl

/-- Claim C1 amended, witness at the sample request. -/
theorem c1_source_lines_concatenated_witness :
    ((prepare (Sandbox.new sampleRequest) allOkEffects FS.empty).2).files
      (sourcePath sampleRequest) = some (concatAll sampleRequest.source_code) :=
  c1_source_lines_concatenated (Sandbox.new sampleRequest) allOkEffects FS.empty
    rfl (fun _ => rfl) (by decide) (by decide) (by decide)

/-- Claim C2 counterexample: directory creation fails, yet prepare
completes with Ok, so a staging failure is silently swallowed. -/
theorem c2_counterexample :
    dirFailEffects.dirOk = false ∧
    (prepare (Sandbox.new sampleRequest) dirFailEffects FS.empty).1 = Except.ok () :=
  ⟨rfl, rfl⟩

/-- Claim C2 amended: prepare returns an error exactly when the creation of
the source file fails or resolving the current directory fails; the outcomes
of directory creation, of every source-line write, of the stdout/stderr file
creations and of the script copy are discarded, so prepare can return Ok even
when those steps failed. -/
theorem c2_prepare_ok_iff (sb : Sandbox) (eff : FsEffects) (fs : FS) :
    (prepare sb eff fs).1 = Except.ok () ↔
      (eff.sourceCreateOk = true ∧ eff.currentDir.isSome = true) :=
  prepare_ok_iff_aux sb eff fs

/-- Claim C3 counterexample: the sample request carries a test with stdin
lines, every primitive succeeds, yet prepare creates no stdin file. -/
theorem c3_counterexample :
    sampleRequest.test = some sampleTest ∧
    sampleTest.stdin_data = some ["x"] ∧
    ((prepare (Sandbox.new sampleRequest) allOkEffects FS.empty).2).files
      (stdinPath sampleRequest) = none :=
  ⟨rfl, rfl, by decide⟩

/-- Claim C3 amended: prepare never writes a stdin file, whether or not the
request carries a test with stdin lines: whenever the stdin path is distinct
from the four paths prepare does write and no stdin file existed beforehand,
none exists afterwards.  (The no-test/no-stdin half of the original claim
holds for the same reason.) -/
theorem c3_no_stdin_file (sb : Sandbox) (eff : FsEffects) (fs : FS)
    (h0 : fs.files (stdinPath sb.request) = none)
    (h1 : stdinPath sb.request ≠ sourcePath sb.request)
    (h2 : stdinPath sb.request ≠ stdoutPath sb.request)
    (h3 : stdinPath sb.request ≠ stderrPath sb.request)
    (h4 : stdinPath sb.request ≠ scriptPath sb.request) :
    ((prepare sb eff fs).2).files (stdinPath sb.request) = none := by
  rw [prepare_files_frame sb eff fs _ h1 h2 h3 h4, h0]

/-- Claim C3 amended, witness at the sample request. -/
theorem c3_no_stdin_file_witness :
    ((prepare (Sandbox.new sampleRequest) allOkEffects FS.empty).2).files
      (stdinPath sampleRequest) = none :=
  c3_no_stdin_file (Sandbox.new sampleRequest) allOkEffects FS.empty
    rfl (by decide) (by decide) (by decide) (by decide)

/-- Claim C4 counterexample: the stdout-file creation fails, yet prepare
completes with Ok and the workspace contains no stdout file afterwards. -/
theorem c4_counterexample :
    (prepare (Sandbox.new sampleRequest) stdoutFailEffects FS.empty).1 = Except.ok () ∧
    ((prepare (Sandbox.new sampleRequest) stdoutFailEffects FS.empty).2).files
      (stdoutPath sampleRequest) = none :=
  ⟨rfl, by decide⟩

/-- Claim C4 amended: when prepare succeeds and additionally the stdout and
stderr file creations and the script copy themselves succeed (their failures
are discarded and not reflected in prepare's result) and the staged paths are
distinct, the workspace contains empty files named by the descriptor's
standard_output_file and standard_error_file and the launcher script under
script.sh, copied from the fixed host location /dockerFiles/source.sh. -/
theorem c4_outputs_and_script_staged (sb : Sandbox) (eff : FsEffects) (fs : FS)
    (cwd c : String)
    (hs : eff.sourceCreateOk = true) (ho : eff.stdoutCreateOk = true)
    (he : eff.stderrCreateOk = true) (hc : eff.currentDir = some cwd)
    (hcp : eff.copyOk = true) (hh : eff.hostFiles "/dockerFiles/source.sh" = some c)
    (d1 : stdoutPath sb.request ≠ stderrPath sb.request)
    (d2 : stdoutPath sb.request ≠ scriptPath sb.request)
    (d3 : stderrPath sb.request ≠ scriptPath sb.request) :
    (prepare sb eff fs).1 = Except.ok () ∧
    ((prepare sb eff fs).2).files (stdoutPath sb.request) = some "" ∧
    ((prepare sb eff fs).2).files (stderrPath sb.request) = some "" ∧
    ((prepare sb eff fs).2).files (scriptPath sb.request) = some c := by
  refine ⟨?_, ?_, ?_, prepare_script_file sb eff fs cwd c hs hc hcp hh⟩
  · exact (prepare_ok_iff_aux sb eff fs).mpr ⟨hs, by rw [hc]; rfl⟩
  · unfold prepare stageSource
    rw [if_pos hs]
    rw [stageScript_snd_files_ne _ _ _ _ d2, stageStderr_files_ne _ _ _ _ d1]
    unfold stageStdout
    rw [if_pos ho]
    exact setFile_files_self _ _ _
  · unfold prepare stageSource
    rw [if_pos hs]
    rw [stageScript_snd_files_ne _ _ _ _ d3]
    unfold stageStderr
    rw [if_pos he]
    exact setFile_files_self _ _ _

/-- Claim C4 amended, witness at the sample request. -/
theorem c4_outputs_and_script_staged_witness :
    (prepare (Sandbox.new sampleRequest) allOkEffects FS.empty).1 = Except.ok () ∧
    ((prepare (Sandbox.new sampleRequest) allOkEffects FS.empty).2).files
      (stdoutPath sampleRequest) = some "" ∧
    ((prepare (Sandbox.new sampleRequest) allOkEffects FS.empty).2).files
      (stderrPath sampleRequest) = some "" ∧
    ((prepare (Sandbox.new sampleRequest) allOkEffects FS.empty).2).files
      (scriptPath sampleRequest) = some "#!/bin/sh\n" :=
  c4_outputs_and_script_staged (Sandbox.new sampleRequest) allOkEffects FS.empty
    "/home/runner" "#!/bin/sh\n" rfl rfl rfl rfl rfl (by decide)
    (by decide) (by decide) (by decide)

/-- Claim C5 counterexample: the workspace path already exists in the
filesystem and the directory creation fails, yet prepare completes with Ok,
so no PathConflict failure exists in the code. -/
theorem c5_counterexample :
    occupiedFS.dirs sampleRequest.path = true ∧
    dirFailEffects.dirOk = false ∧
    (prepare (Sandbox.new sampleRequest) dirFailEffects occupiedFS).1 = Except.ok () :=
  ⟨by decide, rfl, rfl⟩

/-- Claim C5 amended: prepare attempts to create the workspace path and its
parents (on a successful creation the path and every ancestor exist), but the
outcome of the creation is discarded: prepare's result is the same whether
the creation succeeded or failed, so a path conflict never makes prepare fail
and no PathConflict error exists. -/
theorem c5_dir_creation_ignored (sb : Sandbox) (eff : FsEffects) (fs : FS) (q : String)
    (hd : eff.dirOk = true) (hq : dirCovers q sb.request.path = true) :
    ((prepare sb eff fs).2).dirs q = true ∧
    (prepare sb eff fs).1 = (prepare sb { eff with dirOk := false } fs).1 := by
  constructor
  · rw [prepare_dirs_eq, if_pos hd]
    simp [createDirAll, hq]
  · unfold prepare
    exact stageSource_fst sb eff { eff with dirOk := false } _ _ rfl rfl

/-- Claim C5 amended, witness at the sample request and its own path. -/
theorem c5_dir_creation_ignored_witness :
    ((prepare (Sandbox.new sampleRequest) allOkEffects FS.empty).2).dirs "/work/req1" = true ∧
    (prepare (Sandbox.new sampleRequest) allOkEffects FS.empty).1 =
      (prepare (Sandbox.new sampleRequest) { allOkEffects with dirOk := false } FS.empty).1 :=
  c5_dir_creation_ignored (Sandbox.new sampleRequest) allOkEffects FS.empty
    "/work/req1" rfl (by decide)

/-- Claim C6: every entry of the registry has a non-empty command and a
non-empty image name, the registry holds exactly two interpreted-language
entries, and the stdout/stderr file names across the registry are pairwise
distinct.  (The registry is an immutable Lean definition, mirroring the
immutable `const` in the source.) -/
theorem c6_registry_invariants :
    (∀ c ∈ COMPILERS, c.compiler ≠ "" ∧ c.virtual_machine_name ≠ "" ∧ c.interpreter = true) ∧
    COMPILERS.length = 2 ∧
    (COMPILERS.map (fun c => c.standard_output_file) ++
      COMPILERS.map (fun c => c.standard_error_file)).Pairwise (fun a b => a ≠ b) := by
  decide

/-- Claim C7 counterexample: a request with timeout 0 is representable, so
the field's type does not bound the value to the range 1 to 255. -/
theorem c7_counterexample :
    zeroTimeoutRequest.timeout = (0 : Fin 256) ∧ ¬(1 ≤ zeroTimeoutRequest.timeout.val) :=
  ⟨rfl, by decide⟩

/-- Claim C7 amended: the timeout field is a u8, so its type bounds every
request's timeout to the range 0 to 255 (0 is representable; 256 is not). -/
theorem c7_timeout_bounded (r : SandboxRequest) : r.timeout.val ≤ 255 := by
  have h := r.timeout.isLt
  omega

/-- Claim C8: the spec-modelled verifier returns Passed exactly when the
expected and actual stdout lines agree as ordered sequences (same length and
identical lines at every index), returns Failed exactly on a mismatch, and
produces no result when no test is attached. -/
theorem c8_verifier_exact_match (expected actual : List String) :
    (verifyLines expected actual = SandboxTestResult.Passed ↔
      (expected.length = actual.length ∧
        ∀ (n : Nat) (h1 : n < expected.length) (h2 : n < actual.length),
          expected.get ⟨n, h1⟩ = actual.get ⟨n, h2⟩)) ∧
    (verifyLines expected actual = SandboxTestResult.Failed ↔ ¬(expected = actual)) ∧
    (∀ a : List String, runVerification none a = none) := by
  refine ⟨?_, ?_, fun a => rfl⟩
  · unfold verifyLines
    by_cases h : expected = actual
    · rw [if_pos h]
      constructor
      · intro _
        exact List.ext_get_iff.mp h
      · intro _
        rfl
    · rw [if_neg h]
      constructor
      · intro hfa
        exact SandboxTestResult.noConfusion hfa
      · intro hrhs
        exact absurd (List.ext_get_iff.mpr hrhs) h
  · unfold verifyLines
    by_cases h : expected = actual
    · rw [if_pos h]
      simp [h]
    · rw [if_neg h]
      simp [h]

/-- Claim C9: the launcher-script source path joins the current working
directory with the absolute path /dockerFiles/source.sh, and an absolute
right operand of a path join discards the left operand, so for every current
directory prepare copies the script from /dockerFiles/source.sh. -/
theorem c9_script_copied_from_root (sb : Sandbox) (eff : FsEffects) (fs : FS)
    (cwd c : String)
    (hs : eff.sourceCreateOk = true) (hc : eff.currentDir = some cwd)
    (hcp : eff.copyOk = true) (hh : eff.hostFiles "/dockerFiles/source.sh" = some c) :
    rsJoin cwd "/dockerFiles/source.sh" = "/dockerFiles/source.sh" ∧
    ((prepare sb eff fs).2).files (scriptPath sb.request) = some c :=
  ⟨rsJoin_script cwd, prepare_script_file sb eff fs cwd c hs hc hcp hh⟩

/-- Claim C9, witness at the sample request. -/
theorem c9_script_copied_from_root_witness :
    rsJoin "/home/runner" "/dockerFiles/source.sh" = "/dockerFiles/source.sh" ∧
    ((prepare (Sandbox.new sampleRequest) allOkEffects FS.empty).2).files
      (scriptPath sampleRequest) = some "#!/bin/sh\n" :=
  c9_script_copied_from_root (Sandbox.new sampleRequest) allOkEffects FS.empty
    "/home/runner" "#!/bin/sh\n" rfl rfl rfl (by decide)

/-- Claim C10: Sandbox::new is a total pure constructor: it returns exactly
the structure holding the request, so the stored request is the given one and
no filesystem effect occurs (its embedding neither takes nor returns an FS
state). -/
theorem c10_new_stores_request (r : SandboxRequest) :
    Sandbox.new r = { request := r } ∧ (Sandbox.new r).request = r :=
  ⟨rfl, rfl⟩
